import Mathlib

/-!
Shallow embedding of `oceanmetrics.py`.

NumPy arrays are modelled as a shape together with a total entry function
(entries outside the shape are junk and never consulted by in-range
statements).  Element-wise binary operations implement NumPy's broadcasting
rule on the modelled dimensions and return `none` exactly when NumPy would
raise a broadcast error.  The four grid diagnostics and the metric
dispatcher are translated statement by statement from the source.
-/

/-- A 1-D NumPy array: a size and an entry function. -/
structure Np1 where
  size : ℕ
  ent : ℕ → ℚ

/-- A 2-D NumPy array: shape `(rows, cols)` and an entry function. -/
structure Np2 where
  rows : ℕ
  cols : ℕ
  ent : ℕ → ℕ → ℚ

/-- A 3-D NumPy array: shape `(d0, d1, d2)` and an entry function. -/
structure Np3 where
  d0 : ℕ
  d1 : ℕ
  d2 : ℕ
  ent : ℕ → ℕ → ℕ → ℚ

/-- Broadcast index: an axis of extent 1 is read at index 0, as in NumPy. -/
def bidx (d i : ℕ) : ℕ := if d = 1 then 0 else i

/-- NumPy broadcast compatibility of two axis extents. -/
def bcompat (a b : ℕ) : Prop := a = b ∨ a = 1 ∨ b = 1

instance (a b : ℕ) : Decidable (bcompat a b) := by
  unfold bcompat
  infer_instance

/-- Element-wise binary operation on 1-D arrays with NumPy broadcasting. -/
def np1_binop (f : ℚ → ℚ → ℚ) (A B : Np1) : Option Np1 :=
  if bcompat A.size B.size then
    some ⟨max A.size B.size, fun i => f (A.ent (bidx A.size i)) (B.ent (bidx B.size i))⟩
  else none

/-- Element-wise binary operation on 2-D arrays with NumPy broadcasting. -/
def np2_binop (f : ℚ → ℚ → ℚ) (A B : Np2) : Option Np2 :=
  if bcompat A.rows B.rows ∧ bcompat A.cols B.cols then
    some ⟨max A.rows B.rows, max A.cols B.cols,
      fun i j => f (A.ent (bidx A.rows i) (bidx A.cols j)) (B.ent (bidx B.rows i) (bidx B.cols j))⟩
  else none

/-- Element-wise binary operation on 3-D arrays with NumPy broadcasting. -/
def np3_binop (f : ℚ → ℚ → ℚ) (A B : Np3) : Option Np3 :=
  if bcompat A.d0 B.d0 ∧ bcompat A.d1 B.d1 ∧ bcompat A.d2 B.d2 then
    some ⟨max A.d0 B.d0, max A.d1 B.d1, max A.d2 B.d2,
      fun t i j => f (A.ent (bidx A.d0 t) (bidx A.d1 i) (bidx A.d2 j))
                     (B.ent (bidx B.d0 t) (bidx B.d1 i) (bidx B.d2 j))⟩
  else none

/-- `v[1:]` on a 1-D array. -/
def np1_from1 (v : Np1) : Np1 := ⟨v.size - 1, fun i => v.ent (i + 1)⟩

/-- `v[:-1]` on a 1-D array. -/
def np1_upToLast (v : Np1) : Np1 := ⟨v.size - 1, v.ent⟩

/-- `v[None, :]`: view a 1-D array as a single-row 2-D array. -/
def np1_row (v : Np1) : Np2 := ⟨1, v.size, fun _ j => v.ent j⟩

/-- `v[:, None]`: view a 1-D array as a single-column 2-D array. -/
def np1_col (v : Np1) : Np2 := ⟨v.size, 1, fun i _ => v.ent i⟩

/-- `v[None, None, :]`: view a 1-D array as a 3-D array along axis 2. -/
def np1_ax2 (v : Np1) : Np3 := ⟨1, 1, v.size, fun _ _ j => v.ent j⟩

/-- `v[None, :, None]`: view a 1-D array as a 3-D array along axis 1. -/
def np1_ax1 (v : Np1) : Np3 := ⟨1, v.size, 1, fun _ i _ => v.ent i⟩

/-- `A[None, :, :]`: view a 2-D array as a 3-D array with leading extent 1. -/
def np2_ax12 (A : Np2) : Np3 := ⟨1, A.rows, A.cols, fun _ i j => A.ent i j⟩

/-- `A[:, 1:]` on a 2-D array. -/
def np2_colsFrom1 (A : Np2) : Np2 := ⟨A.rows, A.cols - 1, fun i j => A.ent i (j + 1)⟩

/-- `A[:, :-1]` on a 2-D array. -/
def np2_colsUpToLast (A : Np2) : Np2 := ⟨A.rows, A.cols - 1, A.ent⟩

/-- `A[1:, :]` on a 2-D array. -/
def np2_rowsFrom1 (A : Np2) : Np2 := ⟨A.rows - 1, A.cols, fun i j => A.ent (i + 1) j⟩

/-- `A[:-1, :]` on a 2-D array. -/
def np2_rowsUpToLast (A : Np2) : Np2 := ⟨A.rows - 1, A.cols, A.ent⟩

/-- `A[:, :, 1:]` on a 3-D array. -/
def np3_ax2From1 (A : Np3) : Np3 := ⟨A.d0, A.d1, A.d2 - 1, fun t i j => A.ent t i (j + 1)⟩

/-- `A[:, :, :-1]` on a 3-D array. -/
def np3_ax2UpToLast (A : Np3) : Np3 := ⟨A.d0, A.d1, A.d2 - 1, A.ent⟩

/-- `A[:, 1:, :]` on a 3-D array. -/
def np3_ax1From1 (A : Np3) : Np3 := ⟨A.d0, A.d1 - 1, A.d2, fun t i j => A.ent t (i + 1) j⟩

/-- `A[:, :-1, :]` on a 3-D array. -/
def np3_ax1UpToLast (A : Np3) : Np3 := ⟨A.d0, A.d1 - 1, A.d2, A.ent⟩

/-- Scalar multiplication on a 3-D array (no shape check in NumPy). -/
def np3_smul (c : ℚ) (A : Np3) : Np3 := ⟨A.d0, A.d1, A.d2, fun t i j => c * A.ent t i j⟩

/-- Element-wise square, `A**2`. -/
def np3_sq (A : Np3) : Np3 := ⟨A.d0, A.d1, A.d2, fun t i j => A.ent t i j ^ 2⟩

/-- `np.zeros((r, c))`. -/
def np2_zeros (r c : ℕ) : Np2 := ⟨r, c, fun _ _ => 0⟩

/-- `np.zeros((d0, d1, d2))`. -/
def np3_zeros (d0 d1 d2 : ℕ) : Np3 := ⟨d0, d1, d2, fun _ _ _ => 0⟩

/-- In-place `V[:, 1:-1] += D` on a 2-D array: `D` must broadcast to the
slice's shape `(V.rows, V.cols - 2)`; NumPy raises otherwise. -/
def np2_addColsInterior (V D : Np2) : Option Np2 :=
  if (D.rows = V.rows ∨ D.rows = 1) ∧ (D.cols = V.cols - 2 ∨ D.cols = 1) then
    some ⟨V.rows, V.cols, fun i j =>
      if 1 ≤ j ∧ j + 1 < V.cols then
        V.ent i j + D.ent (bidx D.rows i) (bidx D.cols (j - 1))
      else V.ent i j⟩
  else none

/-- In-place `V[1:-1, :] -= D` on a 2-D array. -/
def np2_subRowsInterior (V D : Np2) : Option Np2 :=
  if (D.rows = V.rows - 2 ∨ D.rows = 1) ∧ (D.cols = V.cols ∨ D.cols = 1) then
    some ⟨V.rows, V.cols, fun i j =>
      if 1 ≤ i ∧ i + 1 < V.rows then
        V.ent i j - D.ent (bidx D.rows (i - 1)) (bidx D.cols j)
      else V.ent i j⟩
  else none

/-- In-place `V[:, :, 1:-1] += D` on a 3-D array. -/
def np3_addAx2Interior (V D : Np3) : Option Np3 :=
  if (D.d0 = V.d0 ∨ D.d0 = 1) ∧ (D.d1 = V.d1 ∨ D.d1 = 1) ∧ (D.d2 = V.d2 - 2 ∨ D.d2 = 1) then
    some ⟨V.d0, V.d1, V.d2, fun t i j =>
      if 1 ≤ j ∧ j + 1 < V.d2 then
        V.ent t i j + D.ent (bidx D.d0 t) (bidx D.d1 i) (bidx D.d2 (j - 1))
      else V.ent t i j⟩
  else none

/-- In-place `V[:, 1:-1, :] -= D` on a 3-D array. -/
def np3_subAx1Interior (V D : Np3) : Option Np3 :=
  if (D.d0 = V.d0 ∨ D.d0 = 1) ∧ (D.d1 = V.d1 - 2 ∨ D.d1 = 1) ∧ (D.d2 = V.d2 ∨ D.d2 = 1) then
    some ⟨V.d0, V.d1, V.d2, fun t i j =>
      if 1 ≤ i ∧ i + 1 < V.d1 then
        V.ent t i j - D.ent (bidx D.d0 t) (bidx D.d1 (i - 1)) (bidx D.d2 j)
      else V.ent t i j⟩
  else none

/-- Entry accessor for an optional 2-D result (`0` when the computation failed). -/
def o2ent (o : Option Np2) (i j : ℕ) : ℚ :=
  match o with
  | some A => A.ent i j
  | none => 0

/-- Row count of an optional 2-D result. -/
def o2rows (o : Option Np2) : ℕ :=
  match o with
  | some A => A.rows
  | none => 0

/-- Column count of an optional 2-D result. -/
def o2cols (o : Option Np2) : ℕ :=
  match o with
  | some A => A.cols
  | none => 0

/-- Entry accessor for an optional 3-D result. -/
def o3ent (o : Option Np3) (t i j : ℕ) : ℚ :=
  match o with
  | some A => A.ent t i j
  | none => 0

/-- Leading extent of an optional 3-D result. -/
def o3d0 (o : Option Np3) : ℕ :=
  match o with
  | some A => A.d0
  | none => 0

/-- Middle extent of an optional 3-D result. -/
def o3d1 (o : Option Np3) : ℕ :=
  match o with
  | some A => A.d1
  | none => 0

/-- Trailing extent of an optional 3-D result. -/
def o3d2 (o : Option Np3) : ℕ :=
  match o with
  | some A => A.d2
  | none => 0

/-- `u_tzx[t]`: leading-axis slice of a 3-D array. -/
def np3_slice0 (A : Np3) (t : ℕ) : Np2 := ⟨A.d1, A.d2, fun i j => A.ent t i j⟩

/--
`vorty_zx(u_zx, w_zx, xC, xF, zC, zF)` from the source:

    dwdx = (w_zx[:, 1:] - w_zx[:, :-1]) / (xC[None, 1:] - xC[None, :-1])
    dudz = (u_zx[1:, :] - u_zx[:-1, :]) / (zC[1:, None] - zC[:-1, None])
    vorty = np.zeros((zF.shape[0], xF.shape[0]))
    vorty[:, 1:-1] += dwdx
    vorty[1:-1, :] -= dudz
    return vorty
-/
def vorty_zx (u_zx w_zx : Np2) (xC xF zC zF : Np1) : Option Np2 :=
  (np2_binop (fun a b => a - b) (np2_colsFrom1 w_zx) (np2_colsUpToLast w_zx)).bind fun wdiff =>
  (np2_binop (fun a b => a - b) (np1_row (np1_from1 xC)) (np1_row (np1_upToLast xC))).bind fun xCd =>
  (np2_binop (fun a b => a / b) wdiff xCd).bind fun dwdx =>
  (np2_binop (fun a b => a - b) (np2_rowsFrom1 u_zx) (np2_rowsUpToLast u_zx)).bind fun udiff =>
  (np2_binop (fun a b => a - b) (np1_col (np1_from1 zC)) (np1_col (np1_upToLast zC))).bind fun zCd =>
  (np2_binop (fun a b => a / b) udiff zCd).bind fun dudz =>
  (np2_addColsInterior (np2_zeros zF.size xF.size) dwdx).bind fun v1 =>
  np2_subRowsInterior v1 dudz

/--
`vorty_tzx(u_tzx, w_tzx, xC, xF, zC, zF)` from the source:

    dwdx = (w_tzx[:, :, 1:] - w_tzx[:, :, :-1]) / (xC[None, None, 1:] - xC[None, None, :-1])
    dudz = (u_tzx[:, 1:, :] - u_tzx[:, :-1, :]) / (zC[None, 1:, None] - zC[None, :-1, None])
    vorty = np.zeros((u_tzx.shape[0], zF.shape[0], xF.shape[0]))
    vorty[:, :, 1:-1] += dwdx
    vorty[:, 1:-1, :] -= dudz
    return vorty
-/
def vorty_tzx (u_tzx w_tzx : Np3) (xC xF zC zF : Np1) : Option Np3 :=
  (np3_binop (fun a b => a - b) (np3_ax2From1 w_tzx) (np3_ax2UpToLast w_tzx)).bind fun wdiff =>
  (np3_binop (fun a b => a - b) (np1_ax2 (np1_from1 xC)) (np1_ax2 (np1_upToLast xC))).bind fun xCd =>
  (np3_binop (fun a b => a / b) wdiff xCd).bind fun dwdx =>
  (np3_binop (fun a b => a - b) (np3_ax1From1 u_tzx) (np3_ax1UpToLast u_tzx)).bind fun udiff =>
  (np3_binop (fun a b => a - b) (np1_ax1 (np1_from1 zC)) (np1_ax1 (np1_upToLast zC))).bind fun zCd =>
  (np3_binop (fun a b => a / b) udiff zCd).bind fun dudz =>
  (np3_addAx2Interior (np3_zeros u_tzx.d0 zF.size xF.size) dwdx).bind fun v1 =>
  np3_subAx1Interior v1 dudz

/--
`kinetic_energy(u, w, xF, zF, rhow=1025)` from the source:

    uCC = (u[:, :, 1:] + u[:, :, :-1]) * 0.5
    wCC = (w[:, 1:, :] + w[:, :-1, :]) * 0.5
    dx = xF[1:] - xF[:-1]
    dz = zF[1:] - zF[:-1]
    areas = dx[None, :] * dz[:, None]
    return 0.5 * rhow * (uCC**2 + wCC**2) * areas[None, :, :]
-/
def kinetic_energy (u w : Np3) (xF zF : Np1) (rhow : ℚ) : Option Np3 :=
  (np3_binop (fun a b => a + b) (np3_ax2From1 u) (np3_ax2UpToLast u)).bind fun uS =>
  (np3_binop (fun a b => a + b) (np3_ax1From1 w) (np3_ax1UpToLast w)).bind fun wS =>
  (np1_binop (fun a b => a - b) (np1_from1 xF) (np1_upToLast xF)).bind fun dx =>
  (np1_binop (fun a b => a - b) (np1_from1 zF) (np1_upToLast zF)).bind fun dz =>
  (np2_binop (fun a b => a * b) (np1_row dx) (np1_col dz)).bind fun areas =>
  (np3_binop (fun a b => a + b) (np3_sq (np3_smul (1/2) uS)) (np3_sq (np3_smul (1/2) wS))).bind
    fun s =>
  np3_binop (fun a b => a * b) (np3_smul ((1/2) * rhow) s) (np2_ax12 areas)

/--
`potential_energy(b, xF, zF, zC, rhow=1025)` from the source:

    dx = xF[1:] - xF[:-1]
    dz = zF[1:] - zF[:-1]
    areas = dx[None, :] * dz[:, None]
    b0 = b[0, :, -1]
    delta_b = b0[None, :, None] - b
    return rhow * delta_b * zC[None, :, None] * areas[None, :, :]

`b[0, :, -1]` raises an IndexError when `b` is empty along axis 0 or 2. -/
def potential_energy (b : Np3) (xF zF zC : Np1) (rhow : ℚ) : Option Np3 :=
  (np1_binop (fun a b => a - b) (np1_from1 xF) (np1_upToLast xF)).bind fun dx =>
  (np1_binop (fun a b => a - b) (np1_from1 zF) (np1_upToLast zF)).bind fun dz =>
  (np2_binop (fun a b => a * b) (np1_row dx) (np1_col dz)).bind fun areas =>
  if b.d0 = 0 ∨ b.d2 = 0 then none else
  (np3_binop (fun a b => a - b) (np1_ax1 ⟨b.d1, fun i => b.ent 0 i (b.d2 - 1)⟩) b).bind
    fun delta_b =>
  (np3_binop (fun a b => a * b) (np3_smul rhow delta_b) (np1_ax1 zC)).bind fun t1 =>
  np3_binop (fun a b => a * b) t1 (np2_ax12 areas)

/-- `apply_func(func, runid)` from the source: `return func(runid)`. -/
def apply_func {α β : Type} (func : α → β) (runid : α) : β := func runid

/-- `apply_funcs(func_list, runid)` from the source: starts from the empty
list and appends `apply_func(func, runid)` for each `func` in order. -/
def apply_funcs {α β : Type} (func_list : List (α → β)) (runid : α) : List β :=
  func_list.foldl (fun value_list func => value_list ++ [apply_func func runid]) []

/-- A parameter table as read by `pd.read_csv`: named columns of strings. -/
structure DataFrame where
  cols : List (String × List String)

/-- `df[name]`: column lookup, `none` models the KeyError on a missing column. -/
def DataFrame.getCol (df : DataFrame) (name : String) : Option (List String) :=
  (df.cols.find? (fun p => p.1 == name)).map Prod.snd

/-- `apply_metric(func, *args, parameter_file)` from the source, with the
already-read table standing in for the external CSV file: extracts the
`id` column and appends `func(runid, *args)` for each `runid` in order. -/
def apply_metric {A V : Type} (func : String → A → V) (args : A) (df : DataFrame) :
    Option (List V) :=
  match df.getCol "id" with
  | none => none
  | some runids => some (runids.foldl (fun val_list runid => val_list ++ [func runid args]) [])

/-! Concrete example grids used to instantiate the general theorems. -/

/-- Example `u_zx` on a 2-centre × 2-centre grid: `u = 3 z`, so `du/dz = 3`. -/
def uEx : Np2 := ⟨2, 3, fun i _ => 3 * (i : ℚ)⟩

/-- Example `w_zx` on the same grid: `w = x`, so `dw/dx = 1`. -/
def wEx : Np2 := ⟨3, 2, fun _ j => (j : ℚ)⟩

/-- Example x-centre coordinates `[0, 1]`. -/
def xCEx : Np1 := ⟨2, fun j => (j : ℚ)⟩

/-- Example x-face coordinates `[0, 1, 2]`. -/
def xFEx : Np1 := ⟨3, fun j => (j : ℚ)⟩

/-- Example z-centre coordinates `[0, 1]`. -/
def zCEx : Np1 := ⟨2, fun i => (i : ℚ)⟩

/-- Example z-face coordinates `[0, 1, 2]`. -/
def zFEx : Np1 := ⟨3, fun i => (i : ℚ)⟩

/-- An x-face array of the wrong length (5 instead of 3) for the example grid. -/
def xFBad : Np1 := ⟨5, fun j => (j : ℚ)⟩

/-- Example 3-D `u_tzx` with two time slices. -/
def uT : Np3 := ⟨2, 2, 3, fun t i j => (t : ℚ) * 10 + 3 * i + j⟩

/-- Example 3-D `w_tzx` with two time slices. -/
def wT : Np3 := ⟨2, 3, 2, fun t i j => (t : ℚ) * 7 + i + 5 * j⟩

/-- Constant horizontal velocity `u = 2` on a single-centre grid (`nz = nx = 1`). -/
def uK : Np3 := ⟨1, 1, 2, fun _ _ _ => 2⟩

/-- Zero vertical velocity on the single-centre grid. -/
def wK : Np3 := ⟨1, 2, 1, fun _ _ _ => 0⟩

/-- Valid x-face coordinates `[0, 1]` for the single-centre grid. -/
def xFK : Np1 := ⟨2, fun j => (j : ℚ)⟩

/-- A z-face array of the wrong length (4 instead of 2) for the single-centre grid. -/
def zFKbad : Np1 := ⟨4, fun i => (i : ℚ)⟩

/-- Constant horizontal velocity `u = 2` on the 2 × 2 example grid. -/
def uK2 : Np3 := ⟨1, 2, 3, fun _ _ _ => 2⟩

/-- Zero vertical velocity on the 2 × 2 example grid. -/
def wK2 : Np3 := ⟨1, 3, 2, fun _ _ _ => 0⟩

/-- A buoyancy field that equals its own reference column everywhere. -/
def bC6 : Np3 := ⟨1, 2, 2, fun _ i _ => (i : ℚ)⟩

/-- A generic, non-constant buoyancy field. -/
def bC10 : Np3 := ⟨2, 2, 2, fun t i j => (t : ℚ) + 2 * i + 5 * j⟩

/-- An example parameter table with an `id` column. -/
def dfEx : DataFrame := ⟨[("run", ["x"]), ("id", ["a", "bb", "ccc"])]⟩

/-- In-range indices are unchanged by broadcast indexing. -/
theorem bidx_lt {d i : ℕ} (h : i < d) : bidx d i = i := by
  unfold bidx
  split
  · omega
  · rfl

/-- `Option.bind` distributes over the guarded results our operations return. -/
theorem opt_ite_bind {α β : Type} (c : Prop) [Decidable c] (a : α) (f : α → Option β) :
    (if c then some a else none).bind f = if c then f a else none := by
  split <;> rfl

theorem o2ent_ite (c : Prop) [Decidable c] (a b : Option Np2) (i j : ℕ) :
    o2ent (if c then a else b) i j = if c then o2ent a i j else o2ent b i j := by
  split <;> rfl

theorem o2rows_ite (c : Prop) [Decidable c] (a b : Option Np2) :
    o2rows (if c then a else b) = if c then o2rows a else o2rows b := by
  split <;> rfl

theorem o2cols_ite (c : Prop) [Decidable c] (a b : Option Np2) :
    o2cols (if c then a else b) = if c then o2cols a else o2cols b := by
  split <;> rfl

theorem isSome_ite {α : Type} (c : Prop) [Decidable c] (a b : Option α) :
    (if c then a else b).isSome = if c then a.isSome else b.isSome := by
  split <;> rfl

theorem o2ent_some (A : Np2) (i j : ℕ) : o2ent (some A) i j = A.ent i j := rfl

theorem o2ent_none (i j : ℕ) : o2ent none i j = 0 := rfl

theorem o3ent_ite (c : Prop) [Decidable c] (a b : Option Np3) (t i j : ℕ) :
    o3ent (if c then a else b) t i j = if c then o3ent a t i j else o3ent b t i j := by
  split <;> rfl

theorem o3d0_ite (c : Prop) [Decidable c] (a b : Option Np3) :
    o3d0 (if c then a else b) = if c then o3d0 a else o3d0 b := by
  split <;> rfl

theorem o3d1_ite (c : Prop) [Decidable c] (a b : Option Np3) :
    o3d1 (if c then a else b) = if c then o3d1 a else o3d1 b := by
  split <;> rfl

theorem o3d2_ite (c : Prop) [Decidable c] (a b : Option Np3) :
    o3d2 (if c then a else b) = if c then o3d2 a else o3d2 b := by
  split <;> rfl

theorem o3ent_some (A : Np3) (t i j : ℕ) : o3ent (some A) t i j = A.ent t i j := rfl

theorem o3ent_none (t i j : ℕ) : o3ent none t i j = 0 := rfl

/-- Closed form for the in-range entries of `vorty_zx` on a valid staggered
grid: interior x-face columns carry the `dw/dx` difference quotient, interior
z-face rows carry the `du/dz` one, and each term vanishes elsewhere. -/
theorem vorty_zx_ent (u w : Np2) (xC xF zC zF : Np1) (nz nx : ℕ)
    (hnz : 1 ≤ nz) (hnx : 1 ≤ nx)
    (hur : u.rows = nz) (huc : u.cols = nx + 1)
    (hwr : w.rows = nz + 1) (hwc : w.cols = nx)
    (hxC : xC.size = nx) (hxF : xF.size = nx + 1)
    (hzC : zC.size = nz) (hzF : zF.size = nz + 1)
    (i j : ℕ) (hi : i ≤ nz) (hj : j ≤ nx) :
    o2ent (vorty_zx u w xC xF zC zF) i j =
      (if 1 ≤ j ∧ j < nx then
        (w.ent i j - w.ent i (j - 1)) / (xC.ent j - xC.ent (j - 1)) else 0)
      - (if 1 ≤ i ∧ i < nz then
        (u.ent i j - u.ent (i - 1) j) / (zC.ent i - zC.ent (i - 1)) else 0) := by
  simp only [vorty_zx, np2_binop, np2_addColsInterior, np2_subRowsInterior, np2_colsFrom1,
    np2_colsUpToLast, np2_rowsFrom1, np2_rowsUpToLast, np1_row, np1_col, np1_from1, np1_upToLast,
    np2_zeros, bcompat, opt_ite_bind, hur, huc, hwr, hwc, hxC, hzC, hxF, hzF,
    o2ent_ite, o2ent_some, o2ent_none, bidx]
  have hz1 : nz + 1 ≠ 1 := by omega
  have hx1 : nx + 1 ≠ 1 := by omega
  have hzs : nz + 1 - 2 = nz - 1 := by omega
  have hxs : nx + 1 - 2 = nx - 1 := by omega
  have hzm : (nz + 1) ⊔ 1 = nz + 1 := by omega
  have hxm : (nx + 1) ⊔ 1 = nx + 1 := by omega
  simp only [max_self, hz1, hx1, hzs, hxs, hzm, hxm, eq_self_iff_true, true_or, or_true,
    false_or, or_false, true_and, and_true, if_true, ite_true, ite_false, if_false, not_false_iff]
  split_ifs <;>
    first
      | (exfalso; omega)
      | ((try simp only [zero_add, sub_zero, zero_sub]); congr! <;> omega)
      | norm_num

/-- On a valid staggered grid `vorty_zx` succeeds and the result has shape
`(len zF, len xF)`. -/
theorem vorty_zx_shape (u w : Np2) (xC xF zC zF : Np1) (nz nx : ℕ)
    (hnz : 1 ≤ nz) (hnx : 1 ≤ nx)
    (hur : u.rows = nz) (huc : u.cols = nx + 1)
    (hwr : w.rows = nz + 1) (hwc : w.cols = nx)
    (hxC : xC.size = nx) (hxF : xF.size = nx + 1)
    (hzC : zC.size = nz) (hzF : zF.size = nz + 1) :
    (vorty_zx u w xC xF zC zF).isSome = true ∧
      o2rows (vorty_zx u w xC xF zC zF) = zF.size ∧
      o2cols (vorty_zx u w xC xF zC zF) = xF.size := by
  simp only [vorty_zx, np2_binop, np2_addColsInterior, np2_subRowsInterior, np2_colsFrom1,
    np2_colsUpToLast, np2_rowsFrom1, np2_rowsUpToLast, np1_row, np1_col, np1_from1, np1_upToLast,
    np2_zeros, bcompat, opt_ite_bind, hur, huc, hwr, hwc, hxC, hzC, hxF, hzF,
    o2rows_ite, o2cols_ite, isSome_ite]
  have hz1 : nz + 1 ≠ 1 := by omega
  have hx1 : nx + 1 ≠ 1 := by omega
  have hzs : nz + 1 - 2 = nz - 1 := by omega
  have hxs : nx + 1 - 2 = nx - 1 := by omega
  have hzm : (nz + 1) ⊔ 1 = nz + 1 := by omega
  have hxm : (nx + 1) ⊔ 1 = nx + 1 := by omega
  simp only [max_self, hz1, hx1, hzs, hxs, hzm, hxm, eq_self_iff_true, true_or, or_true,
    false_or, or_false, true_and, and_true, if_true, ite_true, ite_false, if_false, not_false_iff]
  exact ⟨rfl, rfl, rfl⟩

set_option maxHeartbeats 1600000 in
/-- Closed form for the in-range entries of `vorty_tzx` on a valid staggered
grid: the same formula as `vorty_zx`, per leading time index. -/
theorem vorty_tzx_ent (u w : Np3) (xC xF zC zF : Np1) (T nz nx : ℕ)
    (hT : 1 ≤ T) (hnz : 1 ≤ nz) (hnx : 1 ≤ nx)
    (hu0 : u.d0 = T) (hu1 : u.d1 = nz) (hu2 : u.d2 = nx + 1)
    (hw0 : w.d0 = T) (hw1 : w.d1 = nz + 1) (hw2 : w.d2 = nx)
    (hxC : xC.size = nx) (hxF : xF.size = nx + 1)
    (hzC : zC.size = nz) (hzF : zF.size = nz + 1)
    (t i j : ℕ) (ht : t < T) (hi : i ≤ nz) (hj : j ≤ nx) :
    o3ent (vorty_tzx u w xC xF zC zF) t i j =
      (if 1 ≤ j ∧ j < nx then
        (w.ent t i j - w.ent t i (j - 1)) / (xC.ent j - xC.ent (j - 1)) else 0)
      - (if 1 ≤ i ∧ i < nz then
        (u.ent t i j - u.ent t (i - 1) j) / (zC.ent i - zC.ent (i - 1)) else 0) := by
  simp only [vorty_tzx, np3_binop, np3_addAx2Interior, np3_subAx1Interior, np3_ax2From1,
    np3_ax2UpToLast, np3_ax1From1, np3_ax1UpToLast, np1_ax1, np1_ax2, np1_from1, np1_upToLast,
    np3_zeros, bcompat, opt_ite_bind, hu0, hu1, hu2, hw0, hw1, hw2, hxC, hzC, hxF, hzF,
    o3ent_ite, o3ent_some, o3ent_none, bidx]
  have hz1 : nz + 1 ≠ 1 := by omega
  have hx1 : nx + 1 ≠ 1 := by omega
  have hzs : nz + 1 - 2 = nz - 1 := by omega
  have hxs : nx + 1 - 2 = nx - 1 := by omega
  have hzm : (nz + 1) ⊔ 1 = nz + 1 := by omega
  have hxm : (nx + 1) ⊔ 1 = nx + 1 := by omega
  have hTm : T ⊔ 1 = T := by omega
  simp only [max_self, hz1, hx1, hzs, hxs, hzm, hxm, hTm, eq_self_iff_true, true_or, or_true,
    false_or, or_false, true_and, and_true, if_true, ite_true, ite_false, if_false, not_false_iff]
  split_ifs <;>
    first
      | (exfalso; omega)
      | ((try simp only [zero_add, sub_zero, zero_sub]); congr! <;> omega)
      | norm_num

/-- On a valid staggered grid `vorty_tzx` succeeds and the result has shape
`(T, len zF, len xF)`. -/
theorem vorty_tzx_shape (u w : Np3) (xC xF zC zF : Np1) (T nz nx : ℕ)
    (hT : 1 ≤ T) (hnz : 1 ≤ nz) (hnx : 1 ≤ nx)
    (hu0 : u.d0 = T) (hu1 : u.d1 = nz) (hu2 : u.d2 = nx + 1)
    (hw0 : w.d0 = T) (hw1 : w.d1 = nz + 1) (hw2 : w.d2 = nx)
    (hxC : xC.size = nx) (hxF : xF.size = nx + 1)
    (hzC : zC.size = nz) (hzF : zF.size = nz + 1) :
    (vorty_tzx u w xC xF zC zF).isSome = true ∧
      o3d0 (vorty_tzx u w xC xF zC zF) = T ∧
      o3d1 (vorty_tzx u w xC xF zC zF) = zF.size ∧
      o3d2 (vorty_tzx u w xC xF zC zF) = xF.size := by
  simp only [vorty_tzx, np3_binop, np3_addAx2Interior, np3_subAx1Interior, np3_ax2From1,
    np3_ax2UpToLast, np3_ax1From1, np3_ax1UpToLast, np1_ax1, np1_ax2, np1_from1, np1_upToLast,
    np3_zeros, bcompat, opt_ite_bind, hu0, hu1, hu2, hw0, hw1, hw2, hxC, hzC, hxF, hzF,
    o3d0_ite, o3d1_ite, o3d2_ite, isSome_ite]
  have hz1 : nz + 1 ≠ 1 := by omega
  have hx1 : nx + 1 ≠ 1 := by omega
  have hzs : nz + 1 - 2 = nz - 1 := by omega
  have hxs : nx + 1 - 2 = nx - 1 := by omega
  have hzm : (nz + 1) ⊔ 1 = nz + 1 := by omega
  have hxm : (nx + 1) ⊔ 1 = nx + 1 := by omega
  have hTm : T ⊔ 1 = T := by omega
  simp only [max_self, hz1, hx1, hzs, hxs, hzm, hxm, hTm, eq_self_iff_true, true_or, or_true,
    false_or, or_false, true_and, and_true, if_true, ite_true, ite_false, if_false, not_false_iff]
  exact ⟨rfl, rfl, rfl, rfl⟩

set_option maxHeartbeats 800000 in
/-- Closed form for the in-range entries of `kinetic_energy` on a valid
staggered grid: half the density times the squared cell-centred speed times
the cell area. -/
theorem kinetic_energy_ent (u w : Np3) (xF zF : Np1) (rhow : ℚ) (T nz nx : ℕ)
    (hT : 1 ≤ T) (hnz : 1 ≤ nz) (hnx : 1 ≤ nx)
    (hu0 : u.d0 = T) (hu1 : u.d1 = nz) (hu2 : u.d2 = nx + 1)
    (hw0 : w.d0 = T) (hw1 : w.d1 = nz + 1) (hw2 : w.d2 = nx)
    (hxF : xF.size = nx + 1) (hzF : zF.size = nz + 1)
    (t i j : ℕ) (ht : t < T) (hi : i < nz) (hj : j < nx) :
    o3ent (kinetic_energy u w xF zF rhow) t i j =
      ((1/2) * rhow * (((1/2) * (u.ent t i (j + 1) + u.ent t i j)) ^ 2
        + ((1/2) * (w.ent t (i + 1) j + w.ent t i j)) ^ 2))
      * ((xF.ent (j + 1) - xF.ent j) * (zF.ent (i + 1) - zF.ent i)) := by
  simp only [kinetic_energy, np3_binop, np2_binop, np1_binop, np3_ax2From1, np3_ax2UpToLast,
    np3_ax1From1, np3_ax1UpToLast, np1_from1, np1_upToLast, np1_row, np1_col, np2_ax12,
    np3_smul, np3_sq, bcompat, opt_ite_bind, hu0, hu1, hu2, hw0, hw1, hw2, hxF, hzF,
    o3ent_ite, o3ent_some, o3ent_none, bidx]
  have hz1 : nz + 1 ≠ 1 := by omega
  have hx1 : nx + 1 ≠ 1 := by omega
  have hzs : nz + 1 - 1 = nz := by omega
  have hxs : nx + 1 - 1 = nx := by omega
  have hTm : T ⊔ 1 = T := by omega
  have hTm' : (1 : ℕ) ⊔ T = T := by omega
  have hzm : (1 : ℕ) ⊔ nz = nz := by omega
  have hzm' : nz ⊔ 1 = nz := by omega
  have hxm : (1 : ℕ) ⊔ nx = nx := by omega
  have hxm' : nx ⊔ 1 = nx := by omega
  simp only [max_self, hz1, hx1, hzs, hxs, hTm, hTm', hzm, hzm', hxm, hxm', eq_self_iff_true,
    true_or, or_true, false_or, or_false, true_and, and_true, if_true, ite_true, ite_false,
    if_false, not_false_iff]
  split_ifs <;> first | (exfalso; omega) | (congr! <;> omega)

/-- On a valid staggered grid `kinetic_energy` succeeds with a centre-grid
shaped result `(T, nz, nx)`. -/
theorem kinetic_energy_shape (u w : Np3) (xF zF : Np1) (rhow : ℚ) (T nz nx : ℕ)
    (hT : 1 ≤ T) (hnz : 1 ≤ nz) (hnx : 1 ≤ nx)
    (hu0 : u.d0 = T) (hu1 : u.d1 = nz) (hu2 : u.d2 = nx + 1)
    (hw0 : w.d0 = T) (hw1 : w.d1 = nz + 1) (hw2 : w.d2 = nx)
    (hxF : xF.size = nx + 1) (hzF : zF.size = nz + 1) :
    (kinetic_energy u w xF zF rhow).isSome = true ∧
      o3d0 (kinetic_energy u w xF zF rhow) = T ∧
      o3d1 (kinetic_energy u w xF zF rhow) = nz ∧
      o3d2 (kinetic_energy u w xF zF rhow) = nx := by
  simp only [kinetic_energy, np3_binop, np2_binop, np1_binop, np3_ax2From1, np3_ax2UpToLast,
    np3_ax1From1, np3_ax1UpToLast, np1_from1, np1_upToLast, np1_row, np1_col, np2_ax12,
    np3_smul, np3_sq, bcompat, opt_ite_bind, hu0, hu1, hu2, hw0, hw1, hw2, hxF, hzF,
    o3d0_ite, o3d1_ite, o3d2_ite, isSome_ite]
  have hz1 : nz + 1 ≠ 1 := by omega
  have hx1 : nx + 1 ≠ 1 := by omega
  have hzs : nz + 1 - 1 = nz := by omega
  have hxs : nx + 1 - 1 = nx := by omega
  have hTm : T ⊔ 1 = T := by omega
  have hTm' : (1 : ℕ) ⊔ T = T := by omega
  have hzm : (1 : ℕ) ⊔ nz = nz := by omega
  have hzm' : nz ⊔ 1 = nz := by omega
  have hxm : (1 : ℕ) ⊔ nx = nx := by omega
  have hxm' : nx ⊔ 1 = nx := by omega
  simp only [max_self, hz1, hx1, hzs, hxs, hTm, hTm', hzm, hzm', hxm, hxm', eq_self_iff_true,
    true_or, or_true, false_or, or_false, true_and, and_true, if_true, ite_true, ite_false,
    if_false, not_false_iff]
  exact ⟨rfl, rfl, rfl, rfl⟩

set_option maxHeartbeats 800000 in
/-- Closed form for the in-range entries of `potential_energy` on a valid
staggered grid: density times the buoyancy deficit against the reference
column `b[0, :, -1]`, times the centre height and the cell area. -/
theorem potential_energy_ent (b : Np3) (xF zF zC : Np1) (rhow : ℚ) (T nz nx : ℕ)
    (hT : 1 ≤ T) (hnz : 1 ≤ nz) (hnx : 1 ≤ nx)
    (hb0 : b.d0 = T) (hb1 : b.d1 = nz) (hb2 : b.d2 = nx)
    (hxF : xF.size = nx + 1) (hzF : zF.size = nz + 1) (hzC : zC.size = nz)
    (t i j : ℕ) (ht : t < T) (hi : i < nz) (hj : j < nx) :
    o3ent (potential_energy b xF zF zC rhow) t i j =
      (rhow * (b.ent 0 i (nx - 1) - b.ent t i j) * zC.ent i)
      * ((xF.ent (j + 1) - xF.ent j) * (zF.ent (i + 1) - zF.ent i)) := by
  simp only [potential_energy, np3_binop, np2_binop, np1_binop, np1_ax1, np1_from1,
    np1_upToLast, np1_row, np1_col, np2_ax12, np3_smul, bcompat, opt_ite_bind,
    hb0, hb1, hb2, hxF, hzF, hzC, o3ent_ite, o3ent_some, o3ent_none, bidx]
  have hz1 : nz + 1 ≠ 1 := by omega
  have hx1 : nx + 1 ≠ 1 := by omega
  have hzs : nz + 1 - 1 = nz := by omega
  have hxs : nx + 1 - 1 = nx := by omega
  have hg : ¬(T = 0 ∨ nx = 0) := by omega
  have hTm : T ⊔ 1 = T := by omega
  have hTm' : (1 : ℕ) ⊔ T = T := by omega
  have hzm : (1 : ℕ) ⊔ nz = nz := by omega
  have hzm' : nz ⊔ 1 = nz := by omega
  have hxm : (1 : ℕ) ⊔ nx = nx := by omega
  have hxm' : nx ⊔ 1 = nx := by omega
  simp only [max_self, hz1, hx1, hzs, hxs, hg, hTm, hTm', hzm, hzm', hxm, hxm',
    eq_self_iff_true, true_or, or_true, false_or, or_false, true_and, and_true, if_true,
    ite_true, ite_false, if_false, not_false_iff]
  split_ifs <;> first | (exfalso; omega) | (congr! <;> omega)

/-- On a valid staggered grid `potential_energy` succeeds with a centre-grid
shaped result `(T, nz, nx)`. -/
theorem potential_energy_shape (b : Np3) (xF zF zC : Np1) (rhow : ℚ) (T nz nx : ℕ)
    (hT : 1 ≤ T) (hnz : 1 ≤ nz) (hnx : 1 ≤ nx)
    (hb0 : b.d0 = T) (hb1 : b.d1 = nz) (hb2 : b.d2 = nx)
    (hxF : xF.size = nx + 1) (hzF : zF.size = nz + 1) (hzC : zC.size = nz) :
    (potential_energy b xF zF zC rhow).isSome = true ∧
      o3d0 (potential_energy b xF zF zC rhow) = T ∧
      o3d1 (potential_energy b xF zF zC rhow) = nz ∧
      o3d2 (potential_energy b xF zF zC rhow) = nx := by
  simp only [potential_energy, np3_binop, np2_binop, np1_binop, np1_ax1, np1_from1,
    np1_upToLast, np1_row, np1_col, np2_ax12, np3_smul, bcompat, opt_ite_bind,
    hb0, hb1, hb2, hxF, hzF, hzC, o3d0_ite, o3d1_ite, o3d2_ite, isSome_ite]
  have hz1 : nz + 1 ≠ 1 := by omega
  have hx1 : nx + 1 ≠ 1 := by omega
  have hzs : nz + 1 - 1 = nz := by omega
  have hxs : nx + 1 - 1 = nx := by omega
  have hg : ¬(T = 0 ∨ nx = 0) := by omega
  have hTm : T ⊔ 1 = T := by omega
  have hTm' : (1 : ℕ) ⊔ T = T := by omega
  have hzm : (1 : ℕ) ⊔ nz = nz := by omega
  have hzm' : nz ⊔ 1 = nz := by omega
  have hxm : (1 : ℕ) ⊔ nx = nx := by omega
  have hxm' : nx ⊔ 1 = nx := by omega
  simp only [max_self, hz1, hx1, hzs, hxs, hg, hTm, hTm', hzm, hzm', hxm, hxm',
    eq_self_iff_true, true_or, or_true, false_or, or_false, true_and, and_true, if_true,
    ite_true, ite_false, if_false, not_false_iff]
  exact ⟨rfl, rfl, rfl, rfl⟩

/-- C2: on every valid staggered input, the first and last rows of
`vorty_zx` carry only the `+dw/dx` contribution (no `du/dz` is subtracted
anywhere in those rows), and the first and last columns carry only the
`-du/dz` contribution (no `dw/dx` is added anywhere in those columns). -/
theorem vorty_zx_boundary_policy (u w : Np2) (xC xF zC zF : Np1) (nz nx : ℕ)
    (hnz : 1 ≤ nz) (hnx : 1 ≤ nx)
    (hur : u.rows = nz) (huc : u.cols = nx + 1)
    (hwr : w.rows = nz + 1) (hwc : w.cols = nx)
    (hxC : xC.size = nx) (hxF : xF.size = nx + 1)
    (hzC : zC.size = nz) (hzF : zF.size = nz + 1) :
    (∀ j, j ≤ nx →
      o2ent (vorty_zx u w xC xF zC zF) 0 j =
        (if 1 ≤ j ∧ j < nx then
          (w.ent 0 j - w.ent 0 (j - 1)) / (xC.ent j - xC.ent (j - 1)) else 0) ∧
      o2ent (vorty_zx u w xC xF zC zF) nz j =
        (if 1 ≤ j ∧ j < nx then
          (w.ent nz j - w.ent nz (j - 1)) / (xC.ent j - xC.ent (j - 1)) else 0)) ∧
    (∀ i, i ≤ nz →
      o2ent (vorty_zx u w xC xF zC zF) i 0 =
        -(if 1 ≤ i ∧ i < nz then
          (u.ent i 0 - u.ent (i - 1) 0) / (zC.ent i - zC.ent (i - 1)) else 0) ∧
      o2ent (vorty_zx u w xC xF zC zF) i nx =
        -(if 1 ≤ i ∧ i < nz then
          (u.ent i nx - u.ent (i - 1) nx) / (zC.ent i - zC.ent (i - 1)) else 0)) := by
  refine ⟨fun j hj => ⟨?_, ?_⟩, fun i hi => ⟨?_, ?_⟩⟩
  · rw [vorty_zx_ent u w xC xF zC zF nz nx hnz hnx hur huc hwr hwc hxC hxF hzC hzF 0 j
      (by omega) hj]
    have h0 : ¬(1 ≤ 0 ∧ 0 < nz) := by omega
    rw [if_neg h0, sub_zero]
  · rw [vorty_zx_ent u w xC xF zC zF nz nx hnz hnx hur huc hwr hwc hxC hxF hzC hzF nz j
      (by omega) hj]
    have h0 : ¬(1 ≤ nz ∧ nz < nz) := by omega
    rw [if_neg h0, sub_zero]
  · rw [vorty_zx_ent u w xC xF zC zF nz nx hnz hnx hur huc hwr hwc hxC hxF hzC hzF i 0 hi
      (by omega)]
    have h0 : ¬(1 ≤ 0 ∧ 0 < nx) := by omega
    rw [if_neg h0, zero_sub]
  · rw [vorty_zx_ent u w xC xF zC zF nz nx hnz hnx hur huc hwr hwc hxC hxF hzC hzF i nx hi
      (by omega)]
    have h0 : ¬(1 ≤ nx ∧ nx < nx) := by omega
    rw [if_neg h0, zero_sub]

/-- Witness for C2 on the concrete 2 × 2 example grid. -/
theorem vorty_zx_boundary_policy_witness :
    uEx.rows = 2 ∧
    o2ent (vorty_zx uEx wEx xCEx xFEx zCEx zFEx) 0 1 =
      (if 1 ≤ 1 ∧ 1 < 2 then
        (wEx.ent 0 1 - wEx.ent 0 0) / (xCEx.ent 1 - xCEx.ent 0) else 0) := by
  refine ⟨rfl, ?_⟩
  exact ((vorty_zx_boundary_policy uEx wEx xCEx xFEx zCEx zFEx 2 2 (by norm_num) (by norm_num)
    rfl rfl rfl rfl rfl rfl rfl rfl).1 1 (by norm_num)).1

/-- C1 (counterexample): on the example grid every difference quotient
`dw/dx` equals `1` and every `du/dz` equals `3` (witnessed by the three
non-corner entries below), so a boundary entry missing at most one of the
two terms could only be `1`, `-3`, or `-2`; the corner entry `(0,0)` is `0`,
so it is missing both terms. -/
theorem vorty_zx_corner_counterexample :
    o2ent (vorty_zx uEx wEx xCEx xFEx zCEx zFEx) 0 1 = 1 ∧
    o2ent (vorty_zx uEx wEx xCEx xFEx zCEx zFEx) 1 0 = -3 ∧
    o2ent (vorty_zx uEx wEx xCEx xFEx zCEx zFEx) 1 1 = -2 ∧
    o2ent (vorty_zx uEx wEx xCEx xFEx zCEx zFEx) 0 0 = 0 ∧
    (0 : ℚ) ≠ 1 ∧ (0 : ℚ) ≠ -3 ∧ (0 : ℚ) ≠ -2 := by
  have H := fun (i j : ℕ) (hi : i ≤ 2) (hj : j ≤ 2) =>
    vorty_zx_ent uEx wEx xCEx xFEx zCEx zFEx 2 2 (by norm_num) (by norm_num)
      rfl rfl rfl rfl rfl rfl rfl rfl i j hi hj
  refine ⟨?_, ?_, ?_, ?_, by norm_num, by norm_num, by norm_num⟩
  · rw [H 0 1 (by norm_num) (by norm_num)]
    norm_num [uEx, wEx, xCEx, zCEx]
  · rw [H 1 0 (by norm_num) (by norm_num)]
    norm_num [uEx, wEx, xCEx, zCEx]
  · rw [H 1 1 (by norm_num) (by norm_num)]
    norm_num [uEx, wEx, xCEx, zCEx]
  · rw [H 0 0 (by norm_num) (by norm_num)]
    norm_num

/-- C1 (amended): on every valid staggered input, each entry of the
outermost boundary ring other than the four corners carries exactly one of
the two differenced terms; the four corner entries carry neither term and
are exactly `0`. -/
theorem vorty_zx_boundary_ring (u w : Np2) (xC xF zC zF : Np1) (nz nx : ℕ)
    (hnz : 1 ≤ nz) (hnx : 1 ≤ nx)
    (hur : u.rows = nz) (huc : u.cols = nx + 1)
    (hwr : w.rows = nz + 1) (hwc : w.cols = nx)
    (hxC : xC.size = nx) (hxF : xF.size = nx + 1)
    (hzC : zC.size = nz) (hzF : zF.size = nz + 1) :
    (o2ent (vorty_zx u w xC xF zC zF) 0 0 = 0 ∧
     o2ent (vorty_zx u w xC xF zC zF) 0 nx = 0 ∧
     o2ent (vorty_zx u w xC xF zC zF) nz 0 = 0 ∧
     o2ent (vorty_zx u w xC xF zC zF) nz nx = 0) ∧
    (∀ j, 1 ≤ j → j < nx →
      o2ent (vorty_zx u w xC xF zC zF) 0 j =
        (w.ent 0 j - w.ent 0 (j - 1)) / (xC.ent j - xC.ent (j - 1)) ∧
      o2ent (vorty_zx u w xC xF zC zF) nz j =
        (w.ent nz j - w.ent nz (j - 1)) / (xC.ent j - xC.ent (j - 1))) ∧
    (∀ i, 1 ≤ i → i < nz →
      o2ent (vorty_zx u w xC xF zC zF) i 0 =
        -((u.ent i 0 - u.ent (i - 1) 0) / (zC.ent i - zC.ent (i - 1))) ∧
      o2ent (vorty_zx u w xC xF zC zF) i nx =
        -((u.ent i nx - u.ent (i - 1) nx) / (zC.ent i - zC.ent (i - 1)))) := by
  refine ⟨⟨?_, ?_, ?_, ?_⟩, fun j hj1 hj2 => ⟨?_, ?_⟩, fun i hi1 hi2 => ⟨?_, ?_⟩⟩
  · rw [vorty_zx_ent u w xC xF zC zF nz nx hnz hnx hur huc hwr hwc hxC hxF hzC hzF 0 0
      (by omega) (by omega), if_neg (by omega : ¬(1 ≤ 0 ∧ 0 < nx)),
      if_neg (by omega : ¬(1 ≤ 0 ∧ 0 < nz))]
    norm_num
  · rw [vorty_zx_ent u w xC xF zC zF nz nx hnz hnx hur huc hwr hwc hxC hxF hzC hzF 0 nx
      (by omega) (by omega), if_neg (by omega : ¬(1 ≤ nx ∧ nx < nx)),
      if_neg (by omega : ¬(1 ≤ 0 ∧ 0 < nz))]
    norm_num
  · rw [vorty_zx_ent u w xC xF zC zF nz nx hnz hnx hur huc hwr hwc hxC hxF hzC hzF nz 0
      (by omega) (by omega), if_neg (by omega : ¬(1 ≤ 0 ∧ 0 < nx)),
      if_neg (by omega : ¬(1 ≤ nz ∧ nz < nz))]
    norm_num
  · rw [vorty_zx_ent u w xC xF zC zF nz nx hnz hnx hur huc hwr hwc hxC hxF hzC hzF nz nx
      (by omega) (by omega), if_neg (by omega : ¬(1 ≤ nx ∧ nx < nx)),
      if_neg (by omega : ¬(1 ≤ nz ∧ nz < nz))]
    norm_num
  · rw [vorty_zx_ent u w xC xF zC zF nz nx hnz hnx hur huc hwr hwc hxC hxF hzC hzF 0 j
      (by omega) (by omega), if_pos (by omega : 1 ≤ j ∧ j < nx),
      if_neg (by omega : ¬(1 ≤ 0 ∧ 0 < nz))]
    rw [sub_zero]
  · rw [vorty_zx_ent u w xC xF zC zF nz nx hnz hnx hur huc hwr hwc hxC hxF hzC hzF nz j
      (by omega) (by omega), if_pos (by omega : 1 ≤ j ∧ j < nx),
      if_neg (by omega : ¬(1 ≤ nz ∧ nz < nz))]
    rw [sub_zero]
  · rw [vorty_zx_ent u w xC xF zC zF nz nx hnz hnx hur huc hwr hwc hxC hxF hzC hzF i 0
      (by omega) (by omega), if_neg (by omega : ¬(1 ≤ 0 ∧ 0 < nx)),
      if_pos (by omega : 1 ≤ i ∧ i < nz)]
    rw [zero_sub]
  · rw [vorty_zx_ent u w xC xF zC zF nz nx hnz hnx hur huc hwr hwc hxC hxF hzC hzF i nx
      (by omega) (by omega), if_neg (by omega : ¬(1 ≤ nx ∧ nx < nx)),
      if_pos (by omega : 1 ≤ i ∧ i < nz)]
    rw [zero_sub]

/-- Witness for the amended C1 on the concrete 2 × 2 example grid. -/
theorem vorty_zx_boundary_ring_witness :
    wEx.cols = 2 ∧
    o2ent (vorty_zx uEx wEx xCEx xFEx zCEx zFEx) 0 0 = 0 ∧
    o2ent (vorty_zx uEx wEx xCEx xFEx zCEx zFEx) 1 0 =
      -((uEx.ent 1 0 - uEx.ent 0 0) / (zCEx.ent 1 - zCEx.ent 0)) := by
  have h := vorty_zx_boundary_ring uEx wEx xCEx xFEx zCEx zFEx 2 2 (by norm_num) (by norm_num)
    rfl rfl rfl rfl rfl rfl rfl rfl
  exact ⟨rfl, h.1.1, (h.2.2 1 (by norm_num) (by norm_num)).1⟩

/-- C3: on every valid 3-D staggered input and every time index `t < T`,
the `t`-th time slice of `vorty_tzx` agrees with `vorty_zx` applied to the
`t`-th slices of the velocity fields: same spatial shape and the same
entries everywhere in range. -/
theorem vorty_tzx_slice_equiv (u w : Np3) (xC xF zC zF : Np1) (T nz nx : ℕ)
    (hT : 1 ≤ T) (hnz : 1 ≤ nz) (hnx : 1 ≤ nx)
    (hu0 : u.d0 = T) (hu1 : u.d1 = nz) (hu2 : u.d2 = nx + 1)
    (hw0 : w.d0 = T) (hw1 : w.d1 = nz + 1) (hw2 : w.d2 = nx)
    (hxC : xC.size = nx) (hxF : xF.size = nx + 1)
    (hzC : zC.size = nz) (hzF : zF.size = nz + 1)
    (t : ℕ) (ht : t < T) :
    o3d1 (vorty_tzx u w xC xF zC zF) =
      o2rows (vorty_zx (np3_slice0 u t) (np3_slice0 w t) xC xF zC zF) ∧
    o3d2 (vorty_tzx u w xC xF zC zF) =
      o2cols (vorty_zx (np3_slice0 u t) (np3_slice0 w t) xC xF zC zF) ∧
    ∀ i j, i ≤ nz → j ≤ nx →
      o3ent (vorty_tzx u w xC xF zC zF) t i j =
        o2ent (vorty_zx (np3_slice0 u t) (np3_slice0 w t) xC xF zC zF) i j := by
  have hz := vorty_zx_shape (np3_slice0 u t) (np3_slice0 w t) xC xF zC zF nz nx hnz hnx
    hu1 hu2 hw1 hw2 hxC hxF hzC hzF
  have htz := vorty_tzx_shape u w xC xF zC zF T nz nx hT hnz hnx hu0 hu1 hu2 hw0 hw1 hw2
    hxC hxF hzC hzF
  refine ⟨?_, ?_, fun i j hi hj => ?_⟩
  · rw [htz.2.2.1, hz.2.1]
  · rw [htz.2.2.2, hz.2.2]
  · rw [vorty_tzx_ent u w xC xF zC zF T nz nx hT hnz hnx hu0 hu1 hu2 hw0 hw1 hw2 hxC hxF
      hzC hzF t i j ht hi hj,
      vorty_zx_ent (np3_slice0 u t) (np3_slice0 w t) xC xF zC zF nz nx hnz hnx hu1 hu2
      hw1 hw2 hxC hxF hzC hzF i j hi hj]
    rfl

/-- Witness for C3 on the concrete two-time-slice example. -/
theorem vorty_tzx_slice_equiv_witness :
    uT.d0 = 2 ∧
    o3ent (vorty_tzx uT wT xCEx xFEx zCEx zFEx) 1 1 1 =
      o2ent (vorty_zx (np3_slice0 uT 1) (np3_slice0 wT 1) xCEx xFEx zCEx zFEx) 1 1 := by
  have h := vorty_tzx_slice_equiv uT wT xCEx xFEx zCEx zFEx 2 2 2 (by norm_num) (by norm_num)
    (by norm_num) rfl rfl rfl rfl rfl rfl rfl rfl rfl rfl 1 (by norm_num)
  exact ⟨rfl, h.2.2 1 1 (by norm_num) (by norm_num)⟩

/-- C8: on every valid staggered input the output of `vorty_zx` exists and
has shape exactly `(len zF, len xF)`. -/
theorem vorty_zx_output_shape (u w : Np2) (xC xF zC zF : Np1) (nz nx : ℕ)
    (hnz : 1 ≤ nz) (hnx : 1 ≤ nx)
    (hur : u.rows = nz) (huc : u.cols = nx + 1)
    (hwr : w.rows = nz + 1) (hwc : w.cols = nx)
    (hxC : xC.size = nx) (hxF : xF.size = nx + 1)
    (hzC : zC.size = nz) (hzF : zF.size = nz + 1) :
    o2rows (vorty_zx u w xC xF zC zF) = zF.size ∧
    o2cols (vorty_zx u w xC xF zC zF) = xF.size ∧
    (vorty_zx u w xC xF zC zF).isSome = true := by
  have h := vorty_zx_shape u w xC xF zC zF nz nx hnz hnx hur huc hwr hwc hxC hxF hzC hzF
  exact ⟨h.2.1, h.2.2, h.1⟩

/-- Witness for C8 on the concrete 2 × 2 example grid. -/
theorem vorty_zx_output_shape_witness :
    zFEx.size = 3 ∧ xFEx.size = 3 ∧
    o2rows (vorty_zx uEx wEx xCEx xFEx zCEx zFEx) = zFEx.size ∧
    o2cols (vorty_zx uEx wEx xCEx xFEx zCEx zFEx) = xFEx.size := by
  have h := vorty_zx_output_shape uEx wEx xCEx xFEx zCEx zFEx 2 2 (by norm_num) (by norm_num)
    rfl rfl rfl rfl rfl rfl rfl rfl
  exact ⟨rfl, rfl, h.1, h.2.1⟩

/-- C4 (counterexample): `kinetic_energy` does not always fail on a face
array of the wrong length.  With a single z-centre (`nz = 1`, so `wCC` has
extent 1 along z) and a `zF` of length 4 instead of 2, NumPy broadcasting
silently stretches the velocity term against the 3-row `areas` grid and the
call succeeds, returning a wrongly-shaped result instead of raising. -/
theorem kinetic_energy_silent_broadcast :
    zFKbad.size ≠ uK.d1 + 1 ∧
    (kinetic_energy uK wK xFK zFKbad 1000).isSome = true ∧
    o3d1 (kinetic_energy uK wK xFK zFKbad 1000) = 3 := by
  refine ⟨by decide, ?_, ?_⟩ <;> decide

/-- For `vorty_zx` on fields and centre coordinates of a consistent
staggered shape, a face coordinate array of the wrong length always makes
the computation fail: the in-place update of the zero-filled output rejects
the mismatched broadcast. -/
theorem vorty_zx_invalid_face_fails (u w : Np2) (xC xF zC zF : Np1) (nz nx : ℕ)
    (hnz : 1 ≤ nz) (hnx : 1 ≤ nx)
    (hur : u.rows = nz) (huc : u.cols = nx + 1)
    (hwr : w.rows = nz + 1) (hwc : w.cols = nx)
    (hxC : xC.size = nx) (hzC : zC.size = nz)
    (hbad : xF.size ≠ nx + 1 ∨ zF.size ≠ nz + 1) :
    vorty_zx u w xC xF zC zF = none := by
  simp only [vorty_zx, np2_binop, np2_addColsInterior, np2_subRowsInterior, np2_colsFrom1,
    np2_colsUpToLast, np2_rowsFrom1, np2_rowsUpToLast, np1_row, np1_col, np1_from1, np1_upToLast,
    np2_zeros, bcompat, opt_ite_bind, hur, huc, hwr, hwc, hxC, hzC, bidx]
  have hz1 : nz + 1 ≠ 1 := by omega
  have hx1 : nx + 1 ≠ 1 := by omega
  have hzm : (nz + 1) ⊔ 1 = nz + 1 := by omega
  have hxm : (nx + 1) ⊔ 1 = nx + 1 := by omega
  simp only [max_self, hz1, hx1, hzm, hxm, eq_self_iff_true, true_or, or_true, false_or,
    or_false, true_and, and_true, if_true, ite_true, ite_false, if_false, not_false_iff]
  split_ifs <;> first | rfl | (exfalso; omega)

/-- For `vorty_tzx` on fields and centre coordinates of a consistent
staggered shape, a face coordinate array of the wrong length always makes
the computation fail, exactly as for `vorty_zx`. -/
theorem vorty_tzx_invalid_face_fails (u w : Np3) (xC xF zC zF : Np1) (T nz nx : ℕ)
    (hT : 1 ≤ T) (hnz : 1 ≤ nz) (hnx : 1 ≤ nx)
    (hu0 : u.d0 = T) (hu1 : u.d1 = nz) (hu2 : u.d2 = nx + 1)
    (hw0 : w.d0 = T) (hw1 : w.d1 = nz + 1) (hw2 : w.d2 = nx)
    (hxC : xC.size = nx) (hzC : zC.size = nz)
    (hbad : xF.size ≠ nx + 1 ∨ zF.size ≠ nz + 1) :
    vorty_tzx u w xC xF zC zF = none := by
  simp only [vorty_tzx, np3_binop, np3_addAx2Interior, np3_subAx1Interior, np3_ax2From1,
    np3_ax2UpToLast, np3_ax1From1, np3_ax1UpToLast, np1_ax1, np1_ax2, np1_from1, np1_upToLast,
    np3_zeros, bcompat, opt_ite_bind, hu0, hu1, hu2, hw0, hw1, hw2, hxC, hzC, bidx]
  have hz1 : nz + 1 ≠ 1 := by omega
  have hx1 : nx + 1 ≠ 1 := by omega
  have hzm : (nz + 1) ⊔ 1 = nz + 1 := by omega
  have hxm : (nx + 1) ⊔ 1 = nx + 1 := by omega
  have hTm : T ⊔ 1 = T := by omega
  simp only [max_self, hz1, hx1, hzm, hxm, hTm, eq_self_iff_true, true_or, or_true, false_or,
    or_false, true_and, and_true, if_true, ite_true, ite_false, if_false, not_false_iff]
  split_ifs <;> first | rfl | (exfalso; omega)

/-- C4 (amended): for `vorty_zx` and `vorty_tzx` on fields and centre
coordinates of a consistent staggered shape, a face coordinate array of the
wrong length always makes the computation fail with a broadcast error; the
original claim is false for `kinetic_energy`, whose final multiplication can
silently broadcast instead (see the counterexample). -/
theorem vorty_invalid_face_fails (u2 w2 : Np2) (u3 w3 : Np3) (xC xF zC zF : Np1)
    (T nz nx : ℕ)
    (hT : 1 ≤ T) (hnz : 1 ≤ nz) (hnx : 1 ≤ nx)
    (hur : u2.rows = nz) (huc : u2.cols = nx + 1)
    (hwr : w2.rows = nz + 1) (hwc : w2.cols = nx)
    (hu0 : u3.d0 = T) (hu1 : u3.d1 = nz) (hu2 : u3.d2 = nx + 1)
    (hw0 : w3.d0 = T) (hw1 : w3.d1 = nz + 1) (hw2 : w3.d2 = nx)
    (hxC : xC.size = nx) (hzC : zC.size = nz)
    (hbad : xF.size ≠ nx + 1 ∨ zF.size ≠ nz + 1) :
    vorty_zx u2 w2 xC xF zC zF = none ∧ vorty_tzx u3 w3 xC xF zC zF = none :=
  ⟨vorty_zx_invalid_face_fails u2 w2 xC xF zC zF nz nx hnz hnx hur huc hwr hwc hxC hzC hbad,
   vorty_tzx_invalid_face_fails u3 w3 xC xF zC zF T nz nx hT hnz hnx hu0 hu1 hu2 hw0 hw1 hw2
     hxC hzC hbad⟩

/-- Witness for the amended C4: an x-face array of length 5 on the 2 × 2
example grid makes both `vorty_zx` and `vorty_tzx` fail. -/
theorem vorty_invalid_face_fails_witness :
    (xFBad.size ≠ 2 + 1 ∨ zFEx.size ≠ 2 + 1) ∧
    vorty_zx uEx wEx xCEx xFBad zCEx zFEx = none ∧
    vorty_tzx uT wT xCEx xFBad zCEx zFEx = none := by
  refine ⟨Or.inl (by decide), ?_⟩
  exact vorty_invalid_face_fails uEx wEx uT wT xCEx xFBad zCEx zFEx 2 2 2 (by norm_num)
    (by norm_num) (by norm_num) rfl rfl rfl rfl rfl rfl rfl rfl rfl rfl rfl rfl
    (Or.inl (by decide))

/-- C5: on every uniform grid with `dx = dz = 1`, constant velocities
`u = 2` and `w = 0`, and `rhow = 1000`, every in-range cell of
`kinetic_energy` equals `2000`. -/
theorem kinetic_energy_constant_value (u w : Np3) (xF zF : Np1) (T nz nx : ℕ)
    (hT : 1 ≤ T) (hnz : 1 ≤ nz) (hnx : 1 ≤ nx)
    (hu0 : u.d0 = T) (hu1 : u.d1 = nz) (hu2 : u.d2 = nx + 1)
    (hw0 : w.d0 = T) (hw1 : w.d1 = nz + 1) (hw2 : w.d2 = nx)
    (hxF : xF.size = nx + 1) (hzF : zF.size = nz + 1)
    (hu : ∀ t i j, t < T → i < nz → j < nx + 1 → u.ent t i j = 2)
    (hw : ∀ t i j, t < T → i < nz + 1 → j < nx → w.ent t i j = 0)
    (hdx : ∀ j, j < nx → xF.ent (j + 1) - xF.ent j = 1)
    (hdz : ∀ i, i < nz → zF.ent (i + 1) - zF.ent i = 1) :
    ∀ t i j, t < T → i < nz → j < nx →
      o3ent (kinetic_energy u w xF zF 1000) t i j = 2000 := by
  intro t i j ht hi hj
  rw [kinetic_energy_ent u w xF zF 1000 T nz nx hT hnz hnx hu0 hu1 hu2 hw0 hw1 hw2 hxF hzF
    t i j ht hi hj, hu t i (j + 1) ht hi (by omega), hu t i j ht hi (by omega),
    hw t (i + 1) j ht (by omega) hj, hw t i j ht (by omega) hj, hdx j hj, hdz i hi]
  norm_num

/-- Witness for C5 on the 2 × 2 example grid with unit spacing. -/
theorem kinetic_energy_constant_value_witness :
    uK2.d1 = 2 ∧ o3ent (kinetic_energy uK2 wK2 xFEx zFEx 1000) 0 0 0 = 2000 := by
  have hdx : ∀ j, j < 2 → xFEx.ent (j + 1) - xFEx.ent j = 1 := by
    intro j hj
    show ((j + 1 : ℕ) : ℚ) - (j : ℕ) = 1
    push_cast
    ring
  have hdz : ∀ i, i < 2 → zFEx.ent (i + 1) - zFEx.ent i = 1 := by
    intro i hi
    show ((i + 1 : ℕ) : ℚ) - (i : ℕ) = 1
    push_cast
    ring
  have h := kinetic_energy_constant_value uK2 wK2 xFEx zFEx 1 2 2 (by norm_num) (by norm_num)
    (by norm_num) rfl rfl rfl rfl rfl rfl rfl rfl
    (fun _ _ _ _ _ _ => rfl) (fun _ _ _ _ _ _ => rfl) hdx hdz
  exact ⟨rfl, h 0 0 0 (by norm_num) (by norm_num) (by norm_num)⟩

/-- C6: if the buoyancy field equals its own reference profile
`b[0, :, -1]` everywhere, `potential_energy` is zero at every in-range
cell, for any density and any coordinate arrays of matching sizes. -/
theorem potential_energy_reference_zero (b : Np3) (xF zF zC : Np1) (rhow : ℚ) (T nz nx : ℕ)
    (hT : 1 ≤ T) (hnz : 1 ≤ nz) (hnx : 1 ≤ nx)
    (hb0 : b.d0 = T) (hb1 : b.d1 = nz) (hb2 : b.d2 = nx)
    (hxF : xF.size = nx + 1) (hzF : zF.size = nz + 1) (hzC : zC.size = nz)
    (hb : ∀ t i j, t < T → i < nz → j < nx → b.ent t i j = b.ent 0 i (nx - 1)) :
    ∀ t i j, t < T → i < nz → j < nx →
      o3ent (potential_energy b xF zF zC rhow) t i j = 0 := by
  intro t i j ht hi hj
  rw [potential_energy_ent b xF zF zC rhow T nz nx hT hnz hnx hb0 hb1 hb2 hxF hzF hzC
    t i j ht hi hj, hb t i j ht hi hj]
  simp

/-- Witness for C6: a buoyancy field constant along time and x. -/
theorem potential_energy_reference_zero_witness :
    bC6.d0 = 1 ∧ o3ent (potential_energy bC6 xFEx zFEx zCEx 1025) 0 1 1 = 0 := by
  have h := potential_energy_reference_zero bC6 xFEx zFEx zCEx 1025 1 2 2 (by norm_num)
    (by norm_num) (by norm_num) rfl rfl rfl rfl rfl rfl (fun _ _ _ _ _ _ => rfl)
  exact ⟨rfl, h 0 1 1 (by norm_num) (by norm_num) (by norm_num)⟩

/-- C10: whatever the buoyancy values, `potential_energy` vanishes along its
own reference column: at time `0` and the last x index, `delta_b` is
exactly `b0 - b[0, :, -1] = 0`, so every such entry is `0`. -/
theorem potential_energy_reference_column_zero (b : Np3) (xF zF zC : Np1) (rhow : ℚ)
    (T nz nx : ℕ)
    (hT : 1 ≤ T) (hnz : 1 ≤ nz) (hnx : 1 ≤ nx)
    (hb0 : b.d0 = T) (hb1 : b.d1 = nz) (hb2 : b.d2 = nx)
    (hxF : xF.size = nx + 1) (hzF : zF.size = nz + 1) (hzC : zC.size = nz) :
    ∀ i, i < nz → o3ent (potential_energy b xF zF zC rhow) 0 i (nx - 1) = 0 := by
  intro i hi
  rw [potential_energy_ent b xF zF zC rhow T nz nx hT hnz hnx hb0 hb1 hb2 hxF hzF hzC
    0 i (nx - 1) (by omega) hi (by omega)]
  simp

/-- Witness for C10: a non-constant buoyancy field still yields `0` along
the reference column. -/
theorem potential_energy_reference_column_zero_witness :
    bC10.d0 = 2 ∧ o3ent (potential_energy bC10 xFEx zFEx zCEx 1025) 0 1 1 = 0 := by
  have h := potential_energy_reference_column_zero bC10 xFEx zFEx zCEx 1025 2 2 2
    (by norm_num) (by norm_num) (by norm_num) rfl rfl rfl rfl rfl rfl
  exact ⟨rfl, h 1 (by norm_num)⟩

/-- C7: for every parameter table whose `id` column holds the rows
`r1, …, rn` in order, `apply_metric` returns exactly
`[func r1 args, …, func rn args]`, in table order and of the same length. -/
theorem apply_metric_id_column {A V : Type} (func : String → A → V) (args : A)
    (df : DataFrame) (rs : List String) (h : df.getCol "id" = some rs) :
    apply_metric func args df = some (rs.map (fun r => func r args)) ∧
    (rs.map (fun r => func r args)).length = rs.length := by
  have gen : ∀ (l : List String) (acc : List V),
      l.foldl (fun a r => a ++ [func r args]) acc = acc ++ l.map (fun r => func r args) := by
    intro l
    induction l with
    | nil => intro acc; simp
    | cons x xs ih => intro acc; simp [ih]
  constructor
  · simp only [apply_metric, h]
    rw [gen rs []]
    simp
  · simp

/-- Witness for C7 on a concrete three-row table. -/
theorem apply_metric_id_column_witness :
    dfEx.getCol "id" = some ["a", "bb", "ccc"] ∧
    apply_metric (fun r (_ : Unit) => r.length) () dfEx = some [1, 2, 3] := by
  have h := (apply_metric_id_column (fun r (_ : Unit) => r.length) () dfEx
    ["a", "bb", "ccc"] (by decide)).1
  refine ⟨by decide, ?_⟩
  rw [h]
  decide
